import Mathlib

/-!
Verification of the py-icc-worker compositing pipeline.

The pixel-array code (numpy over uint8 samples) is embedded shallowly:
an image is a grid of natural-number samples, numpy slicing becomes index
arithmetic with Python's clamping semantics, operations that make numpy
raise (shape mismatches, missing files opened by PIL) return `none`, and
in-place mutation is modelled either by explicit value passing or, where
aliasing itself is the property at stake, by a heap of buffers addressed
by index.
-/

namespace PyIcc

/-- An 8-bit image buffer: `h` rows, `w` columns, `c` channels; `px y x k`
is the sample at row `y`, column `x`, channel `k` (numpy row-major order).
Values read outside the `h × w × c` extent are unconstrained. -/
structure Img where
  h : Nat
  w : Nat
  c : Nat
  px : Nat → Nat → Nat → Nat

/-- A mask's coverage plane, as the code extracts it:
`np.array(Image.open(path).convert("RGBA"))[:, :, 3]`. -/
structure Mask where
  h : Nat
  w : Nat
  a : Nat → Nat → Nat

/-- The file system seen by mask-loading code: `none` means the path does
not exist (PIL's `Image.open` raises `FileNotFoundError`) or, for the
`cv2.imread` caller in `main.apply_mask`, that the file cannot be decoded
(both conditions take the same warn-and-return branch there). -/
abbrev FS : Type := String → Option Mask

/-- Computes `np.clip(v, 0, 255).astype(np.uint8)` of an int16 value. -/
def clip255 (v : Int) : Nat := (min (max v 0) 255).toNat

namespace OpenCVProcessor

/-- Body of `OpenCVProcessor.erase_by_mask` (src/processor/opencv_processor.py
lines 53-58) once the mask plane `m` is loaded: the last channel becomes
`np.clip(alpha - mask_alpha, 0, 255)` (int16 arithmetic, exact for uint8
inputs), every other channel is written back unchanged. -/
def eraseAlpha (img : Img) (m : Mask) : Img :=
  { img with px := fun y x k =>
      if k = img.c - 1 then clip255 ((img.px y x k : Int) - (m.a y x : Int))
      else img.px y x k }

/-- Models `OpenCVProcessor.erase_by_mask(mask_path)` (lines 50-60).  The
method opens the mask with no existence check, so a missing file raises
(`none`).  A loaded mask whose plane is not the same `h × w` shape as the
buffer makes the numpy subtraction or the `image[:, :, -1] = new_alpha`
assignment raise a broadcast error (`none`); numpy's special treatment of
broadcast dimensions of size 1 does not arise for the equal-shape inputs
the claims quantify over. -/
def erase_by_mask (fs : FS) (img : Img) (path : String) : Option Img :=
  match fs path with
  | none => none
  | some m => if m.h = img.h ∧ m.w = img.w then some (eraseAlpha img m) else none

/-- Models the explicit-rectangle branch of `OpenCVProcessor.crop`
(lines 113-124, `auto=False`): `self.image[top:top+height, left:left+width]`
with Python slice clamping — the slice start is `min top h`, the stop is
`min (top+height) h`, and row `y` of the result is row `start + y` of the
source.  The `auto` branch (alpha bounding box) is not needed by any claim. -/
def crop (img : Img) (left top width height : Nat) : Img :=
  { h := min (top + height) img.h - min top img.h
    w := min (left + width) img.w - min left img.w
    c := img.c
    px := fun y x k => img.px (min top img.h + y) (min left img.w + x) k }

/-- Models `OpenCVProcessor.composite(other, x, y)` (lines 126-138).  When
the piece fits inside the canvas and the channel counts agree, every
destination pixel of the covered window is `np.where(alpha_mask,
other.image, target_region)`: wholly `other`'s pixel where `other`'s last
channel is nonzero, the existing pixel otherwise.  When the window sticks
out of the canvas, `target_region = self.image[y:y+h, x:x+w, :]` is
clipped short and the `np.where` (or the write-back assignment) raises a
numpy broadcast error (`none`); the size-0/size-1 broadcast exceptions
cannot arise for the piece shapes (both dimensions at least 2) the
counterexample uses. -/
def composited (self other : Img) (x y : Nat) : Img :=
  { self with
    px := fun j i k =>
      if y ≤ j ∧ j < y + other.h ∧ x ≤ i ∧ i < x + other.w ∧
          other.px (j - y) (i - x) (other.c - 1) ≠ 0 then
        other.px (j - y) (i - x) k
      else self.px j i k }

/-- Entry point of the composite step: the in-bounds check under which
the numpy expressions of `composited` evaluate without raising. -/
def composite (self other : Img) (x y : Nat) : Option Img :=
  if y + other.h ≤ self.h ∧ x + other.w ≤ self.w ∧ other.c = self.c then
    some (composited self other x y)
  else none

/-- The channel and alpha planes `OpenCVProcessor.save` (lines 140-170)
hands to the TIFF encoder: `channels = image[:, :, :-1]` (valid for
channel indices below `c - 1`) and `alpha = image[:, :, -1]`, both encoded
byte-for-byte as they are — `save` applies no transformation to the pixel
values before `import_pixels`. -/
structure SaveData where
  h : Nat
  w : Nat
  channels : Nat → Nat → Nat → Nat
  alpha : Nat → Nat → Nat

/-- Models the pixel data written by `OpenCVProcessor.save` (the Wand TIFF
container and compression settings carry these samples unchanged). -/
def save (img : Img) : SaveData :=
  ⟨img.h, img.w, fun y x k => img.px y x k, fun y x => img.px y x (img.c - 1)⟩

/-- Models the call shape of `OpenCVProcessor.crop`: the second component
is the Python return value, `some ()` standing for `return self`
(line 124). -/
def crop_method (img : Img) (left top width height : Nat) : Img × Option Unit :=
  (crop img left top width height, some ())

/-- Models the call shape of `OpenCVProcessor.resize` (lines 62-68): the
resampled content (cv2 Lanczos for color, nearest for alpha) is abstracted
as the argument `resample`; the method ends with `return self` (`some ()`). -/
def resize_method (resample : Img → Nat → Nat → Img) (img : Img)
    (width height : Nat) : Img × Option Unit :=
  (resample img width height, some ())

/-- Models the call shape of `OpenCVProcessor.rotate` (lines 70-111): the
warped content (cv2 `warpAffine` per channel) is abstracted as `warp`; the
body assigns `self.image = rotated` and ends WITHOUT a return statement,
so the Python call evaluates to `None` (`Option.none`). -/
def rotate_method (warp : Img → Int → Img) (img : Img) (angle : Int) :
    Img × Option Unit :=
  (warp img angle, none)

end OpenCVProcessor

namespace WandProcessor

/-- Models the call shape of `WandProcessor.rotate`
(src/processor/wand_processor.py lines 57-59): delegates the rotation to
the image library (abstracted as `warp`) and ends with `return self`. -/
def rotate_method (warp : Img → Int → Img) (img : Img) (angle : Int) :
    Img × Option Unit :=
  (warp img angle, some ())

end WandProcessor

namespace Main

/-- Pixel update performed by `main.apply_mask` (src/main.py lines 59-62)
on a 4-channel BGRA image and an equal-size mask plane (`MASK_INVERT`
is `False`, so the plane is used as read): every one of the four channels
becomes `(channel * (mask / 255)).astype(np.uint8)`.  The float32
multiply-and-truncate is modelled by exact natural floor division; float32
round-to-nearest of a product bounded by the integer `channel` cannot
exceed `channel`, so the monotonicity facts proved below are unaffected by
the at-most-one-unit rounding difference. -/
def apply_mask_core (img : Img) (m : Mask) : Img :=
  { img with px := fun y x k =>
      if k ≤ 3 then img.px y x k * m.a y x / 255 else img.px y x k }

/-- Models `main.apply_mask(image, mask_path)` (lines 27-63): when the
mask file is missing (or `cv2.imread` cannot decode it) the function
warns and returns the image unchanged; otherwise it applies the
multiplicative erase.  The grayscale/3-channel input normalizations and
the mask resampling for mismatched sizes are outside every claim's
hypotheses and are not modelled. -/
def apply_mask (fs : FS) (img : Img) (path : String) : Img :=
  match fs path with
  | none => img
  | some m => apply_mask_core img m

/-- Models `main.crop_image(image, top, left, width, height)`
(lines 66-72): `top` and `left` are clamped into the buffer, the bottom
and right edges are clamped to the buffer's extent, and the clamped
window is sliced out. -/
def crop_image (img : Img) (top left width height : Nat) : Img :=
  { h := min img.h (min top img.h + height) - min top img.h
    w := min img.w (min left img.w + width) - min left img.w
    c := img.c
    px := fun y x k => img.px (min top img.h + y) (min left img.w + x) k }

/-- One blended color sample of `main.place_piece` (line 136):
`roi * (1 - alpha) + sub * alpha` with `alpha = sub_a / 255`, truncated to
uint8.  Exact rational arithmetic (as natural floor division) stands in
for the float64 evaluation; no theorem below depends on the interior
blended values. -/
def blendChannel (dstC srcC srcA : Nat) : Nat :=
  (dstC * (255 - srcA) + srcC * srcA) / 255

/-- Models `main.place_piece(canvas, piece, location)` (lines 118-145)
for 4-channel canvas and piece: the overlap window is clipped to the
canvas extent (`end_top = min(ch, top+ph)`, `end_left = min(cw, left+pw)`),
a window with no rows or no columns is a warned no-op returning the canvas
unchanged, and inside the window color channels are alpha-blended while
the alpha channel takes the maximum of the two coverages. -/
def place_piece (canvas piece : Img) (top left : Nat) : Img :=
  if min canvas.h (top + piece.h) - top = 0 ∨
      min canvas.w (left + piece.w) - left = 0 then canvas
  else
    { canvas with
      px := fun j i k =>
        if top ≤ j ∧ j < min canvas.h (top + piece.h) ∧
            left ≤ i ∧ i < min canvas.w (left + piece.w) then
          if k < 3 then
            blendChannel (canvas.px j i k) (piece.px (j - top) (i - left) k)
              (piece.px (j - top) (i - left) 3)
          else if k = 3 then
            max (canvas.px j i 3) (piece.px (j - top) (i - left) 3)
          else canvas.px j i k
        else canvas.px j i k }

end Main

namespace Cmyk

/-- The stacked 5-channel array `cmyk.save_tiff_cmyka` (src/cmyk.py
lines 68-91) hands to `tifffile.imwrite`: wherever the alpha channel
(index 4) is zero, each of the four color channels is forced to zero
before encoding; the alpha channel itself is written as is.  The TIFF
container (separated photometric, associated-alpha extra sample, raw
ICC tag, deflate/lzw) carries these samples losslessly. -/
def save_tiff_cmyka (img : Img) : Img :=
  { img with px := fun y x k =>
      if k < 4 ∧ img.px y x 4 = 0 then 0 else img.px y x k }

end Cmyk

namespace Pipeline

/-- Python attributes of `OpenCVProcessor` that are plain data, not
callables (class body of src/processor/opencv_processor.py). -/
def opencvFields : List String := ["image", "icc_profile", "mode"]

/-- Callable operations `OpenCVProcessor` exposes (its methods). -/
def opencvMethods : List String :=
  ["load", "clone", "erase_by_mask", "resize", "rotate", "crop",
   "composite", "save", "load_layout"]

/-- Models `ActionCommand.execute` (src/core/pipeline_builder.py
lines 9-19) at the dispatch level against `OpenCVProcessor`: a name that
is no attribute of the processor raises `AttributeError` before any pixel
work; a name that is an attribute but not callable raises `TypeError` at
the call; a method name dispatches (the method's own work is settled by
the per-operation definitions above, so it is summarized as `ok`). -/
def execute (action : String) : Except String Unit :=
  if action ∈ opencvFields ∨ action ∈ opencvMethods then
    if action ∈ opencvMethods then Except.ok ()
    else Except.error ("TypeError: attribute " ++ action ++ " is not callable")
  else Except.error ("Processor has no action " ++ action)

end Pipeline

/-- Fallback image for out-of-range heap reads (never reachable in the
theorems, which keep indices in range). -/
def dfltImg : Img := ⟨0, 0, 0, fun _ _ _ => 0⟩

/-- Store of live pixel buffers: Python objects are cells, a processor
holds the index of its cell.  `OpenCVProcessor.clone` (lines 47-48) calls
`self.image.copy()`, which allocates a FRESH cell holding the same pixel
values; the pair returned is (index of the new cell, extended heap). -/
def cloneAt (hp : List Img) (b : Nat) : Nat × List Img :=
  (hp.length, hp ++ [hp.getD b dfltImg])

/-- One in-place step on the buffer in cell `i`: every mutating operation
of the processor (erase_by_mask, crop, resize, rotate, composite) either
rebinds `self.image` or writes into it, and in both cases only cell `i`
changes; the step's pixel effect is abstracted as `f`. -/
def stepAt (hp : List Img) (i : Nat) (f : Img → Img) : List Img :=
  hp.set i (f (hp.getD i dfltImg))

/-- Concrete 2 × 2 two-channel buffer with varied samples, used by the
concrete witnesses below. -/
def canvasEx : Img := ⟨2, 2, 2, fun y x k => y + 2 * x + 10 * k⟩

/-- Concrete 1 × 1 two-channel piece whose coverage channel is nonzero. -/
def pieceEx : Img := ⟨1, 1, 2, fun _ _ k => if k = 1 then 9 else 3⟩

/-- Concrete fully-covered 2 × 2 piece (both dimensions at least 2, so
no size-0/size-1 numpy broadcast exception applies to it). -/
def pieceEx2 : Img := ⟨2, 2, 2, fun _ _ _ => 255⟩

/-- Concrete 2 × 2 mask plane with uint8 samples. -/
def maskEx : Mask := ⟨2, 2, fun y x => 100 + y + x⟩

/-- A file system on which no mask file exists. -/
def fsEmpty : FS := fun _ => none

/-- A file system holding one decodable mask image. -/
def fsMask : FS := fun p => if p = "L/m1.png" then some maskEx else none

/-- Concrete 1 × 1 five-channel CMYKA buffer whose only pixel is erased
(alpha 0) yet still carries ink 7 in each color channel. -/
def ghostImg : Img := ⟨1, 1, 5, fun _ _ k => if k = 4 then 0 else 7⟩

/-- C6: for every buffer and explicit crop rectangle, the cropped buffer's
dimensions never exceed `min(requested, available-from-origin)` — the crop
never reads outside the buffer — and a `width = height = 0` crop yields an
empty buffer without raising (both `OpenCVProcessor.crop` and
`main.crop_image` are total on all rectangles). -/
theorem crop_containment :
    (∀ (img : Img) (l t wd ht : Nat),
      (OpenCVProcessor.crop img l t wd ht).h ≤ min ht (img.h - t) ∧
      (OpenCVProcessor.crop img l t wd ht).w ≤ min wd (img.w - l)) ∧
    (∀ (img : Img) (l t : Nat),
      (OpenCVProcessor.crop img l t 0 0).h = 0 ∧
      (OpenCVProcessor.crop img l t 0 0).w = 0) ∧
    (∀ (img : Img) (t l wd ht : Nat),
      (Main.crop_image img t l wd ht).h ≤ min ht (img.h - t) ∧
      (Main.crop_image img t l wd ht).w ≤ min wd (img.w - l)) := by
  refine ⟨fun img l t wd ht => ?_, fun img l t => ?_, fun img t l wd ht => ?_⟩ <;>
    simp only [OpenCVProcessor.crop, Main.crop_image] <;> omega

/-- C9: of the geometric operations, `OpenCVProcessor.crop` and
`OpenCVProcessor.resize` end with `return self` but `OpenCVProcessor.rotate`
ends without any return statement, so its call evaluates to Python `None`
(`WandProcessor.rotate` does return self): the claim that every geometric
operation returns self fails on `OpenCVProcessor.rotate`. -/
theorem rotate_returns_none :
    (∀ (img : Img) (l t wd ht : Nat),
      (OpenCVProcessor.crop_method img l t wd ht).2 = some ()) ∧
    (∀ (f : Img → Nat → Nat → Img) (img : Img) (wd ht : Nat),
      (OpenCVProcessor.resize_method f img wd ht).2 = some ()) ∧
    (∀ (f : Img → Int → Img) (img : Img) (a : Int),
      (OpenCVProcessor.rotate_method f img a).2 = Option.none) ∧
    (∀ (f : Img → Int → Img) (img : Img) (a : Int),
      (WandProcessor.rotate_method f img a).2 = some ()) :=
  ⟨fun _ _ _ _ _ => rfl, fun _ _ _ _ => rfl, fun _ _ _ => rfl, fun _ _ _ => rfl⟩

/-- C8: executing a step whose action name is not one of the processor's
operations raises (an `AttributeError` when the name is no attribute at
all, a `TypeError` when it names a non-callable attribute) rather than
being silently skipped. -/
theorem unknown_action_fatal (action : String)
    (h : action ∉ Pipeline.opencvMethods) :
    ∃ msg, Pipeline.execute action = Except.error msg := by
  unfold Pipeline.execute
  by_cases hf : action ∈ Pipeline.opencvFields
  · rw [if_pos (Or.inl hf), if_neg h]
    exact ⟨_, rfl⟩
  · rw [if_neg (fun hor => hor.elim hf h)]
    exact ⟨_, rfl⟩

/-- C8 witness: the unknown action name "gradient" raises. -/
theorem unknown_action_fatal_witness :
    ∃ msg, Pipeline.execute "gradient" = Except.error msg :=
  unknown_action_fatal "gradient" (by decide)

/-- C4 (amended): in `main.apply_mask` a missing (or undecodable) mask
file is non-fatal — the function warns and returns the buffer unchanged. -/
theorem missing_mask_passthrough (fs : FS) (img : Img) (path : String)
    (h : fs path = none) : Main.apply_mask fs img path = img := by
  unfold Main.apply_mask
  rw [h]

/-- C4 witness: a concrete missing mask passes the buffer through. -/
theorem missing_mask_passthrough_witness :
    Main.apply_mask fsEmpty canvasEx "L/absent.png" = canvasEx :=
  missing_mask_passthrough fsEmpty canvasEx "L/absent.png" rfl

/-- C4 counterexample: `OpenCVProcessor.erase_by_mask` opens the mask
path with no existence check, so on a missing file the step raises
(`none`) instead of passing the buffer through — the claim is false for
the polymorphic-processor variant. -/
theorem erase_by_mask_missing_raises :
    OpenCVProcessor.erase_by_mask fsEmpty canvasEx "L/absent.png" = none := rfl

/-- C7 (amended): the 5-channel encoder `cmyk.save_tiff_cmyka` forces
every color channel of every alpha-0 pixel to zero before encoding, and
writes the alpha channel unchanged. -/
theorem save_tiff_zeroes_erased (img : Img) (y x k : Nat) (hk : k < 4)
    (ha : img.px y x 4 = 0) :
    (Cmyk.save_tiff_cmyka img).px y x k = 0 ∧
    (Cmyk.save_tiff_cmyka img).px y x 4 = img.px y x 4 := by
  constructor
  · show (if k < 4 ∧ img.px y x 4 = 0 then 0 else img.px y x k) = 0
    rw [if_pos ⟨hk, ha⟩]
  · show (if 4 < 4 ∧ img.px y x 4 = 0 then 0 else img.px y x 4) = img.px y x 4
    rw [if_neg (fun hcon => Nat.lt_irrefl 4 hcon.1)]

/-- C7 witness: the erased ghost-ink pixel is zeroed by the encoder. -/
theorem save_tiff_zeroes_erased_witness :
    (Cmyk.save_tiff_cmyka ghostImg).px 0 0 0 = 0 ∧
    (Cmyk.save_tiff_cmyka ghostImg).px 0 0 4 = ghostImg.px 0 0 4 :=
  save_tiff_zeroes_erased ghostImg 0 0 0 (by decide) (by decide)

/-- C7 counterexample: `OpenCVProcessor.save` hands the color channels to
the encoder unmodified, so a pixel with alpha 0 keeps its nonzero ink in
the saved output — the claim is false for that save path. -/
theorem opencv_save_keeps_ghost_ink :
    (OpenCVProcessor.save ghostImg).alpha 0 0 = 0 ∧
    (OpenCVProcessor.save ghostImg).channels 0 0 0 = 7 :=
  ⟨rfl, rfl⟩

/-- C3: a mask step only removes coverage: with a mask of matching
dimensions, `OpenCVProcessor.erase_by_mask` computes the subtractive
alpha `clip(alpha - mask_alpha, 0, 255) ≤ alpha`, and the multiplicative
variant `main.apply_mask` computes `alpha * (mask / 255) ≤ alpha`. -/
theorem mask_alpha_monotone (fs : FS) (img : Img) (path : String) (m : Mask)
    (hfs : fs path = some m) (hd : m.h = img.h ∧ m.w = img.w) (y x : Nat)
    (hm : m.a y x ≤ 255) :
    OpenCVProcessor.erase_by_mask fs img path =
      some (OpenCVProcessor.eraseAlpha img m) ∧
    (OpenCVProcessor.eraseAlpha img m).px y x (img.c - 1) ≤
      img.px y x (img.c - 1) ∧
    (Main.apply_mask_core img m).px y x 3 ≤ img.px y x 3 := by
  refine ⟨?_, ?_, ?_⟩
  · unfold OpenCVProcessor.erase_by_mask
    rw [hfs]
    exact if_pos hd
  · show (if img.c - 1 = img.c - 1 then
        clip255 ((img.px y x (img.c - 1) : Int) - (m.a y x : Int))
      else img.px y x (img.c - 1)) ≤ img.px y x (img.c - 1)
    rw [if_pos rfl]
    unfold clip255
    omega
  · show (if (3 : Nat) ≤ 3 then img.px y x 3 * m.a y x / 255
      else img.px y x 3) ≤ img.px y x 3
    rw [if_pos (Nat.le_refl 3)]
    calc img.px y x 3 * m.a y x / 255 ≤ img.px y x 3 * 255 / 255 :=
        Nat.div_le_div_right (Nat.mul_le_mul_left _ hm)
      _ = img.px y x 3 := by omega

/-- C3 witness: the monotonicity facts at a concrete buffer and mask. -/
theorem mask_alpha_monotone_witness :
    OpenCVProcessor.erase_by_mask fsMask canvasEx "L/m1.png" =
      some (OpenCVProcessor.eraseAlpha canvasEx maskEx) ∧
    (OpenCVProcessor.eraseAlpha canvasEx maskEx).px 0 0 (canvasEx.c - 1) ≤
      canvasEx.px 0 0 (canvasEx.c - 1) ∧
    (Main.apply_mask_core canvasEx maskEx).px 0 0 3 ≤ canvasEx.px 0 0 3 :=
  mask_alpha_monotone fsMask canvasEx "L/m1.png" maskEx rfl ⟨rfl, rfl⟩ 0 0
    (by decide)

/-- C10: with a mask of the buffer's dimensions,
`OpenCVProcessor.erase_by_mask` writes only the last (coverage) channel;
every color channel of every pixel keeps its value. -/
theorem erase_by_mask_only_alpha (fs : FS) (img : Img) (path : String)
    (m : Mask) (hfs : fs path = some m) (hd : m.h = img.h ∧ m.w = img.w)
    (y x k : Nat) (hk : k < img.c - 1) :
    OpenCVProcessor.erase_by_mask fs img path =
      some (OpenCVProcessor.eraseAlpha img m) ∧
    (OpenCVProcessor.eraseAlpha img m).px y x k = img.px y x k := by
  refine ⟨?_, ?_⟩
  · unfold OpenCVProcessor.erase_by_mask
    rw [hfs]
    exact if_pos hd
  · show (if k = img.c - 1 then
        clip255 ((img.px y x k : Int) - (m.a y x : Int))
      else img.px y x k) = img.px y x k
    rw [if_neg (Nat.ne_of_lt hk)]

/-- C10 witness: a concrete color sample survives the mask step. -/
theorem erase_by_mask_only_alpha_witness :
    OpenCVProcessor.erase_by_mask fsMask canvasEx "L/m1.png" =
      some (OpenCVProcessor.eraseAlpha canvasEx maskEx) ∧
    (OpenCVProcessor.eraseAlpha canvasEx maskEx).px 1 1 0 =
      canvasEx.px 1 1 0 :=
  erase_by_mask_only_alpha fsMask canvasEx "L/m1.png" maskEx rfl ⟨rfl, rfl⟩
    1 1 0 (by decide)

/-- C1: when the piece fits inside the canvas (and channel counts agree),
`OpenCVProcessor.composite` replaces every covered destination pixel
wholly with the piece's pixel wherever the piece's coverage channel is
nonzero, and leaves it unchanged wherever that coverage is zero — a hard
replace, not a linear blend. -/
theorem composite_hard_replace (a b : Img) (x y : Nat)
    (hy : y + b.h ≤ a.h) (hx : x + b.w ≤ a.w) (hc : b.c = a.c)
    (j i k : Nat) (hj : y ≤ j ∧ j < y + b.h) (hi : x ≤ i ∧ i < x + b.w) :
    OpenCVProcessor.composite a b x y =
      some (OpenCVProcessor.composited a b x y) ∧
    (b.px (j - y) (i - x) (b.c - 1) ≠ 0 →
      (OpenCVProcessor.composited a b x y).px j i k =
        b.px (j - y) (i - x) k) ∧
    (b.px (j - y) (i - x) (b.c - 1) = 0 →
      (OpenCVProcessor.composited a b x y).px j i k = a.px j i k) := by
  refine ⟨?_, ?_, ?_⟩
  · unfold OpenCVProcessor.composite
    exact if_pos ⟨hy, hx, hc⟩
  · intro hcov
    show (if y ≤ j ∧ j < y + b.h ∧ x ≤ i ∧ i < x + b.w ∧
        b.px (j - y) (i - x) (b.c - 1) ≠ 0 then
      b.px (j - y) (i - x) k else a.px j i k) = b.px (j - y) (i - x) k
    rw [if_pos ⟨hj.1, hj.2, hi.1, hi.2, hcov⟩]
  · intro hcov
    show (if y ≤ j ∧ j < y + b.h ∧ x ≤ i ∧ i < x + b.w ∧
        b.px (j - y) (i - x) (b.c - 1) ≠ 0 then
      b.px (j - y) (i - x) k else a.px j i k) = a.px j i k
    rw [if_neg (fun hcon => hcon.2.2.2.2 hcov)]

/-- C1 witness: the hard replace at a concrete canvas, piece and offset. -/
theorem composite_hard_replace_witness :
    OpenCVProcessor.composite canvasEx pieceEx 0 1 =
      some (OpenCVProcessor.composited canvasEx pieceEx 0 1) ∧
    (pieceEx.px 0 0 (pieceEx.c - 1) ≠ 0 →
      (OpenCVProcessor.composited canvasEx pieceEx 0 1).px 1 0 0 =
        pieceEx.px 0 0 0) ∧
    (pieceEx.px 0 0 (pieceEx.c - 1) = 0 →
      (OpenCVProcessor.composited canvasEx pieceEx 0 1).px 1 0 0 =
        canvasEx.px 1 0 0) :=
  composite_hard_replace canvasEx pieceEx 0 1 (by decide) (by decide) rfl
    1 0 0 ⟨by decide, by decide⟩ ⟨by decide, by decide⟩

/-- C5 (amended): `main.place_piece` clips an out-of-bounds overlap to
the canvas extent without raising — the result keeps the canvas's
dimensions, a piece placed entirely outside the canvas leaves it
unchanged (a warned no-op), and every pixel outside the clipped window
is untouched. -/
theorem place_piece_clips_and_skips :
    (∀ (c p : Img) (t l : Nat),
      (Main.place_piece c p t l).h = c.h ∧
      (Main.place_piece c p t l).w = c.w) ∧
    (∀ (c p : Img) (t l : Nat), c.h ≤ t ∨ c.w ≤ l →
      Main.place_piece c p t l = c) ∧
    (∀ (c p : Img) (t l j i k : Nat),
      j < t ∨ min c.h (t + p.h) ≤ j ∨ i < l ∨ min c.w (l + p.w) ≤ i →
      (Main.place_piece c p t l).px j i k = c.px j i k) := by
  refine ⟨fun c p t l => ?_, fun c p t l h => ?_,
    fun c p t l j i k h => ?_⟩
  · unfold Main.place_piece
    split_ifs <;> exact ⟨rfl, rfl⟩
  · unfold Main.place_piece
    rw [if_pos (by omega)]
  · unfold Main.place_piece
    split_ifs with h1
    · rfl
    · show (if t ≤ j ∧ j < min c.h (t + p.h) ∧
          l ≤ i ∧ i < min c.w (l + p.w) then
        if k < 3 then
          Main.blendChannel (c.px j i k) (p.px (j - t) (i - l) k)
            (p.px (j - t) (i - l) 3)
        else if k = 3 then
          max (c.px j i 3) (p.px (j - t) (i - l) 3)
        else c.px j i k
      else c.px j i k) = c.px j i k
      rw [if_neg (by omega)]

/-- C5 counterexample: `OpenCVProcessor.composite` raises a numpy
broadcast error (modelled `none`) both for a partially out-of-bounds
overlap and for a piece placed entirely outside the canvas, instead of
clipping or skipping. -/
theorem composite_out_of_bounds_raises :
    OpenCVProcessor.composite canvasEx pieceEx2 1 0 = none ∧
    OpenCVProcessor.composite canvasEx pieceEx2 5 0 = none :=
  ⟨rfl, rfl⟩

/-- C2: `clone()` allocates a fresh cell holding a copy of the buffer's
pixel data, so any in-place step applied to the clone's cell leaves the
original buffer's cell untouched (value semantics, not aliasing). -/
theorem clone_isolation (hp : List Img) (b : Nat) (f : Img → Img)
    (hb : b < hp.length) :
    (cloneAt hp b).2[(cloneAt hp b).1]? = some (hp.getD b dfltImg) ∧
    (stepAt (cloneAt hp b).2 (cloneAt hp b).1 f)[b]? = hp[b]? := by
  constructor
  · show (hp ++ [hp.getD b dfltImg])[hp.length]? = some (hp.getD b dfltImg)
    exact List.getElem?_concat_length hp _
  · show ((hp ++ [hp.getD b dfltImg]).set hp.length _)[b]? = hp[b]?
    rw [List.getElem?_set_ne (by omega)]
    exact List.getElem?_append_left hb

/-- C2 witness: mutating a concrete clone (by the mask step) leaves the
original cell's contents intact. -/
theorem clone_isolation_witness :
    (cloneAt [canvasEx] 0).2[(cloneAt [canvasEx] 0).1]? =
      some ([canvasEx].getD 0 dfltImg) ∧
    (stepAt (cloneAt [canvasEx] 0).2 (cloneAt [canvasEx] 0).1
      (fun im => OpenCVProcessor.eraseAlpha im maskEx))[(0 : Nat)]? =
      [canvasEx][(0 : Nat)]? :=
  clone_isolation [canvasEx] 0 (fun im => OpenCVProcessor.eraseAlpha im maskEx)
    (by decide)

end PyIcc
